import Mathlib

/-!
Shallow embedding of the core of the wayfire compositor relevant to the
plugin activation protocol (`src/src/output.cpp`), the render manager
(`src/src/output.cpp`), geometry predicates (`src/src/view.cpp`) and the
switcher plugin animation state machine
(`src/plugins/single_plugins/switcher.cpp`), together with theorems about
the behaviours of these functions.

Machine integers of the C++ source are modelled as `Int`/`Nat`; none of
the verified code paths depend on fixed-width overflow.  Floating point
scale factors are modelled as rationals (`ℚ`) where only field arithmetic
and comparisons are used, and as reals (`ℝ`) where `sqrt` is involved.
-/

/-! ### Geometry primitives, from `src/src/view.cpp`.

The struct `wf_geometry` itself is declared in a header that is not part
of the sources; modelled from the spec: "Rectangle `{x, y, width, height}`
(integers)". -/

structure wf_point where
  x : Int
  y : Int
deriving DecidableEq, Repr

structure wf_geometry where
  x : Int
  y : Int
  width : Int
  height : Int
deriving DecidableEq, Repr

/-- `point_inside`, `src/src/view.cpp` lines 66-78. -/
def point_inside (point : wf_point) (rect : wf_geometry) : Bool :=
  if point.x < rect.x || point.y < rect.y then false
  else if point.x > rect.x + rect.width then false
  else if point.y > rect.y + rect.height then false
  else true

/-! ### Render manager frame scheduling, from `src/src/output.cpp`.

`idle_scheduled` models `idle_redraw_source != NULL` (an idle callback is
registered).  `constant_redraw` is the "constant redraw" reference count. -/

structure RenderState where
  constant_redraw : Int
  idle_scheduled : Bool
deriving DecidableEq, Repr

/-- `render_manager::schedule_redraw`, `src/src/output.cpp` lines 218-222:
registers the idle callback only when none is pending. -/
def schedule_redraw (st : RenderState) : RenderState :=
  if st.idle_scheduled then st else { st with idle_scheduled := true }

/-- `render_manager::auto_redraw`, `src/src/output.cpp` lines 204-216. -/
def auto_redraw (st : RenderState) (redraw : Bool) : RenderState :=
  let st1 := { st with constant_redraw := st.constant_redraw + (if redraw then 1 else -1) }
  if st1.constant_redraw > 1 then st1
  else if st1.constant_redraw < 0 then { st1 with constant_redraw := 0 }
  else schedule_redraw st1

/-! ### Plugin activation protocol, from `src/src/output.cpp`.

A grab interface carries a name and a capability bitmask
(`abilities_mask`); names are modelled as numeric identifiers.  The
container `active_plugins` is declared in a header not present in the
sources; modelled from the spec: "a set of currently-active plugin
grab-interfaces", hence a `Finset`.  Emitted signals and the `ungrab()`
calls made on interfaces are recorded in logs so that theorems can talk
about them. -/

structure GrabIface where
  id : Nat
  abilities : Nat
deriving DecidableEq, Repr

structure OutputState where
  focused : Bool
  active_plugins : Finset GrabIface
  ungrab_calls : List Nat
  signals : List String

/-- `wayfire_output::emit_signal`, `src/src/output.cpp`: the model records
the emission. -/
def emit_signal (st : OutputState) (name : String) : OutputState :=
  { st with signals := st.signals ++ [name] }

/-- `wayfire_output::activate_plugin`, `src/src/output.cpp` lines
1034-1065.  The null-owner guard of the C++ cannot arise in the model.
The compatibility loop returning `false` at the first already-active
plugin with an overlapping mask is equivalent to the bounded `∀` test. -/
def activate_plugin (st : OutputState) (owner : GrabIface) (lower_fs : Bool) :
    Bool × OutputState :=
  if st.focused = false then (false, st)
  else if owner ∈ st.active_plugins then
    (true, { st with active_plugins := insert owner st.active_plugins })
  else if ∀ p ∈ st.active_plugins, p.abilities &&& owner.abilities = 0 then
    let st1 := if lower_fs && st.active_plugins = ∅
               then emit_signal st "_activation_request" else st
    (true, { st1 with active_plugins := insert owner st1.active_plugins })
  else (false, st)

/-- `wayfire_output::deactivate_plugin`, `src/src/output.cpp` lines
1067-1089.  After the first `erase`, `count(owner)` in a `std::set` is
always `0`, so the middle branch is always taken; the model keeps the
check. -/
def deactivate_plugin (st : OutputState) (owner : GrabIface) : Bool × OutputState :=
  if owner ∉ st.active_plugins then (true, st)
  else
    let st1 := { st with active_plugins := st.active_plugins.erase owner }
    if owner ∉ st1.active_plugins then
      let st2 := { st1 with ungrab_calls := st1.ungrab_calls ++ [owner.id],
                            active_plugins := st1.active_plugins.erase owner }
      if st2.active_plugins = ∅ then (true, emit_signal st2 "_activation_request")
      else (true, st2)
    else (false, st1)

/-- `wayfire_output::is_plugin_active`, `src/src/output.cpp` lines
1091-1098. -/
def is_plugin_active (st : OutputState) (name : Nat) : Prop :=
  ∃ a ∈ st.active_plugins, a.id = name

instance (st : OutputState) (name : Nat) : Decidable (is_plugin_active st name) :=
  inferInstanceAs (Decidable (∃ a ∈ st.active_plugins, a.id = name))

/-! ### Damage regions and `workspace_stream_update`, from `src/src/output.cpp`.

Pixman regions are modelled as lists of boxes, read as the union of the
point sets `[x1, x2) × [y1, y2)`.  Pixman keeps regions normalized; the
model does not need normalization because the theorems only use
membership and emptiness, which agree with the set reading.  Scale
factors (C++ `float`) are modelled as rationals: only products, quotients
and comparisons occur.  Integer division of the C++ (truncation towards
zero) is `Int.tdiv`. -/

structure PBox where
  x1 : Int
  y1 : Int
  x2 : Int
  y2 : Int
deriving DecidableEq, Repr

def PBox.nonempty (b : PBox) : Bool :=
  b.x1 < b.x2 && b.y1 < b.y2

abbrev Region := List PBox

/-- `pixman_region32_not_empty`. -/
def region_not_empty (r : Region) : Bool :=
  r.any PBox.nonempty

/-- `pixman_region32_intersect_rect`: clip each box of the region to the
rectangle, keeping only non-degenerate results. -/
def region_intersect_rect (r : Region) (x y w h : Int) : Region :=
  (r.map (fun b =>
    PBox.mk (max b.x1 x) (max b.y1 y) (min b.x2 (x + w)) (min b.y2 (y + h)))).filter
    PBox.nonempty

/-- `pixman_region32_union_rect`: a degenerate rectangle leaves the region
unchanged, otherwise its box joins the union. -/
def region_union_rect (r : Region) (x y w h : Int) : Region :=
  if (PBox.mk x y (x + w) (y + h)).nonempty then r ++ [PBox.mk x y (x + w) (y + h)] else r

/-- `pixman_region32_translate`. -/
def region_translate (r : Region) (dx dy : Int) : Region :=
  r.map (fun b => PBox.mk (b.x1 + dx) (b.y1 + dy) (b.x2 + dx) (b.y2 + dy))

/-- `render_manager::get_ws_damage`, `src/src/output.cpp` lines 225-262.
`frame_damage` is the accumulated output damage; `(vx, vy)` the requested
workspace, `(vw, vh)` the workspace grid size, `(cx, cy)` the current
workspace.  The `nrect > 0` guard of the C++ corresponds to the clipped
region being non-nil, since clipping keeps only non-degenerate boxes. -/
def get_ws_damage (frame_damage : Region) (og : wf_geometry)
    (vx vy vw vh cx cy : Int) : Region :=
  let d1 := region_intersect_rect frame_damage
      (og.x + Int.tdiv (vx * og.width) vw)
      (og.y + Int.tdiv (vy * og.height) vh)
      (Int.tdiv og.width vw)
      (Int.tdiv og.height vh)
  let d2 := if d1 = [] then d1 else
    d1.map (fun b => PBox.mk ((b.x1 - og.x) * vw) ((b.y1 - og.y) * vh)
                             ((b.x2 - og.x) * vw) ((b.y2 - og.y) * vh))
  region_translate d2 (og.x - cx * og.width) (og.y - cy * og.height)

structure StreamState where
  ws_x : Int
  ws_y : Int
  scale_x : ℚ
  scale_y : ℚ
deriving DecidableEq, Repr

structure StreamUpdateResult where
  early : Bool
  stream : StreamState
  ws_damage : Region
deriving DecidableEq

/-- `render_manager::workspace_stream_update`, `src/src/output.cpp` lines
498-633, up to the computation of the damage that drives the per-view
render loop.  The function then renders exactly the views whose rectangle
meets `ws_damage` (painter's algorithm); that loop only reads `ws_damage`
and does not feed back into it, so the result records the computed
damage, the stream state (scales updated or not), and whether the
function returned at the `we don't have to update anything` early
return. -/
def workspace_stream_update (g : wf_geometry) (vw vh cx cy : Int)
    (frame_damage : Region) (stream : StreamState) (scale_x scale_y : ℚ) :
    StreamUpdateResult :=
  let dx := g.x + (stream.ws_x - cx) * g.width
  let dy := g.y + (stream.ws_y - cy) * g.height
  let ws_damage := get_ws_damage frame_damage g stream.ws_x stream.ws_y vw vh cx cy
  let current_resolution := stream.scale_x * stream.scale_y
  let target_resolution := scale_x * scale_y
  let scaling := max (current_resolution / target_resolution)
                     (target_resolution / current_resolution)
  let ws_damage := if scaling > 2
    then region_union_rect ws_damage dx dy g.width g.height
    else ws_damage
  if region_not_empty ws_damage = false then
    { early := true, stream := stream, ws_damage := [] }
  else if scale_x ≠ stream.scale_x ∨ scale_y ≠ stream.scale_y then
    { early := false,
      stream := { stream with scale_x := scale_x, scale_y := scale_y },
      ws_damage := region_union_rect ws_damage dx dy g.width g.height }
  else
    { early := false, stream := stream, ws_damage := ws_damage }

/-! ### Switcher scale factor, from
`src/plugins/single_plugins/switcher.cpp` lines 38-54.

These functions use `std::sqrt`; the model uses `ℝ` with `Real.sqrt`. -/

/-- `clamp`, `src/plugins/single_plugins/switcher.cpp` lines 38-43. -/
noncomputable def clamp (lo x hi : ℝ) : ℝ :=
  if x < lo then lo else if x > hi then hi else x

/-- `get_scale_factor`, `src/plugins/single_plugins/switcher.cpp` lines
48-54. -/
noncomputable def get_scale_factor (w h sw sh c : ℝ) : ℝ :=
  let d := w * w + h * h
  let sd := sw * sw + sh * sh
  clamp 0.66 (Real.sqrt (sd / d)) 1.5 * c

/-! ### Switcher animation state machine, from
`src/plugins/single_plugins/switcher.cpp`.

Views are identified by numeric ids.  `workspace_views` is what
`output->workspace->get_views_on_workspace(...)` returns, so that
`update_views()` can be modelled as a pure read.  `active_views` keeps
the view id of each `view_paint_attribs` entry: the numeric channels of
those entries (offsets, scales, rotations) drive only the GL transforms
and never feed back into the control flow, so they are not tracked.

The model instruments the observable effects the claims are about:
`deactivate_count` counts calls of `view_switcher::deactivate`,
`cleared_transforms` records the views whose transformer is reset to
null by `deactivate`, and `ub` is set whenever the C++ would execute an
operation with undefined behaviour (modulo by zero, out-of-bounds
`std::vector` indexing, a failed `assert`). -/

structure SwitcherFlags where
  active : Bool
  mod_released : Bool
  in_fold : Bool
  in_unfold : Bool
  in_rotate : Bool
  reversed_folds : Bool
  in_continuous_switch : Bool
  in_fast_switch : Bool
deriving DecidableEq, Repr

def SwitcherFlags.initial : SwitcherFlags :=
  ⟨false, false, false, false, false, false, false, false⟩

structure Switcher where
  state : SwitcherFlags
  current_view_index : Nat
  max_steps : Nat
  initial_animation_steps : Nat
  current_step : Nat
  next_actions : List Int
  views : List Nat
  active_views : List Nat
  workspace_views : List Nat
  deactivate_count : Nat
  cleared_transforms : List Nat
  ub : Bool
deriving DecidableEq, Repr

/-- `MAX_ACTIONS`, `src/plugins/single_plugins/switcher.cpp` line 77. -/
def MAX_ACTIONS : Nat := 4

/-- `view_switcher::update_views`, lines 331-335. -/
def update_views (sw : Switcher) : Switcher :=
  { sw with current_view_index := 0, views := sw.workspace_views }

/-- `view_switcher::view_chosen`, lines 349-355: the `bring_to_front`
loop is external; `focus_view(views[i])` indexes out of bounds whenever
`i >= views.size()` (the loop variable shadows the parameter). -/
def view_chosen (sw : Switcher) (i : Nat) : Switcher :=
  if i < sw.views.length then sw else { sw with ub := true }

/-- `view_switcher::deactivate`, lines 679-699.  `auto_redraw`,
`reset_renderer`, `ungrab`, `deactivate_plugin` and the background
transformer act on the output, not on this state (the system-level model
below composes them); resetting the transformer of each view in `views`
is recorded in `cleared_transforms`. -/
def deactivate (sw : Switcher) : Switcher :=
  let sw1 := { sw with deactivate_count := sw.deactivate_count + 1,
                       cleared_transforms := sw.cleared_transforms ++ sw.views }
  let sw2 := { sw1 with state := { sw1.state with active := false } }
  view_chosen sw2 sw2.current_view_index

/-- `view_switcher::start_fold`, lines 395-436.  `update_views()` resets
`current_view_index` to `0` before the loop, so the loop pushes one
paint-attribs entry per view, cyclically from index `current_view_index`
(always `0` here). -/
def start_fold (sw : Switcher) : Switcher :=
  let sw1 := { sw with active_views := [],
                       state := { sw.state with in_fold := true },
                       current_step := 0 }
  let sw2 := update_views sw1
  let n := sw2.views.length
  { sw2 with active_views :=
      (List.range n).map (fun cnt => sw2.views.getD ((sw2.current_view_index + cnt) % n) 0) }

/-- `view_switcher::push_unfolded_transformed_view`, lines 509-530: the
numeric channels are geometry-only, the entry's view is recorded. -/
def push_unfolded (sw : Switcher) (v : Nat) : Switcher :=
  { sw with active_views := sw.active_views ++ [v] }

/-- `view_switcher::start_unfold`, lines 532-582.  With fewer than two
views the `else` branch computes `(current_view_index + size - 1) % size`
and indexes `views`, which for an empty list is modulo by zero /
out-of-bounds in C++; in the two-view branch, `1 - current_view_index`
on `size_t` wraps when `current_view_index > 1` and the indexing is then
out of bounds. -/
def start_unfold (sw : Switcher) : Switcher :=
  let sw1 := { sw with state := { sw.state with in_unfold := true },
                       current_step := 0,
                       active_views := [] }
  let n := sw1.views.length
  if n = 2 then
    let sw1 := if 1 < sw1.current_view_index then { sw1 with ub := true } else sw1
    let sw2 := push_unfolded sw1 (sw1.views.getD sw1.current_view_index 0)
    push_unfolded sw2 (sw1.views.getD (1 - sw1.current_view_index) 0)
  else
    let sw1 := if n = 0 then { sw1 with ub := true } else sw1
    let prev := (sw1.current_view_index + n - 1) % n
    let next := (sw1.current_view_index + 1) % n
    let sw2 := push_unfolded sw1 (sw1.views.getD sw1.current_view_index 0)
    let sw3 := push_unfolded sw2 (sw1.views.getD prev 0)
    push_unfolded sw3 (sw1.views.getD next 0)

/-- `view_switcher::start_rotate`, lines 602-665.  The index update
`(current_view_index + dir + sz) % sz` is computed in `size_t`; for the
directions `±1` and an in-range index it agrees with the integer
computation below. -/
def start_rotate (sw : Switcher) (dir : Int) : Switcher :=
  let sz := sw.views.length
  if sz ≤ 1 then sw
  else
    let sw1 := { sw with state := { sw.state with in_rotate := true },
                         current_step := 0 }
    let cvi := (((sw1.current_view_index : Int) + dir + sz).toNat) % sz
    let sw2 := { sw1 with current_view_index := cvi }
    let next := (cvi + 1) % sz
    let prev := (cvi + sz - 1) % sz
    let sw3 := { sw2 with active_views := [] }
    if next = prev then
      let sw4 := push_unfolded sw3 (sw3.views.getD cvi 0)
      push_unfolded sw4 (sw3.views.getD next 0)
    else if dir = 1 then
      let sw4 := push_unfolded sw3 (sw3.views.getD cvi 0)
      let sw5 := push_unfolded sw4 (sw3.views.getD prev 0)
      push_unfolded sw5 (sw3.views.getD next 0)
    else
      let sw4 := push_unfolded sw3 (sw3.views.getD cvi 0)
      let sw5 := push_unfolded sw4 (sw3.views.getD next 0)
      push_unfolded sw5 (sw3.views.getD prev 0)

/-- `view_switcher::push_exit`, lines 240-252.  While a stage is
animating the exit action is queued without any capacity check. -/
def push_exit (sw : Switcher) : Switcher :=
  if sw.state.in_rotate || sw.state.in_fold || sw.state.in_unfold then
    { sw with next_actions := sw.next_actions ++ [0] }
  else
    let sw1 := { sw with state := { sw.state with reversed_folds := true } }
    if 2 ≤ sw1.views.length then start_unfold sw1 else start_fold sw1

/-- `view_switcher::push_next_view`, lines 254-262: a step action is
queued only while animating and only when fewer than `MAX_ACTIONS`
entries are pending; otherwise the rotation starts directly. -/
def push_next_view (sw : Switcher) (delta : Int) : Switcher :=
  if (sw.state.in_rotate || sw.state.in_fold || sw.state.in_unfold)
      && decide (sw.next_actions.length < MAX_ACTIONS) then
    { sw with next_actions := sw.next_actions ++ [delta] }
  else
    start_rotate sw delta

/-- `view_switcher::dequeue_next_action`, lines 471-487.  The C++
`assert(!state.in_fold && !state.in_unfold && !state.in_rotate)` aborts
on violation, recorded as `ub`. -/
def dequeue_next_action (sw : Switcher) : Switcher :=
  match sw.next_actions with
  | [] => sw
  | next :: rest =>
    let sw1 := { sw with next_actions := rest }
    let sw1 := if sw1.state.in_fold || sw1.state.in_unfold || sw1.state.in_rotate
               then { sw1 with ub := true } else sw1
    if next = 0 then push_exit sw1 else push_next_view sw1 next

/-- `view_switcher::update_fold`, lines 489-507
(`update_view_transforms` only writes GL matrices). -/
def update_fold (sw : Switcher) : Switcher :=
  let sw1 := { sw with current_step := sw.current_step + 1 }
  if sw1.current_step = sw1.initial_animation_steps then
    let sw2 := { sw1 with state := { sw1.state with in_fold := false } }
    if sw2.state.reversed_folds = false then
      if sw2.active_views.length = 1 then sw2 else start_unfold sw2
    else deactivate sw2
  else sw1

/-- `view_switcher::update_unfold`, lines 584-600. -/
def update_unfold (sw : Switcher) : Switcher :=
  let sw1 := { sw with current_step := sw.current_step + 1 }
  if sw1.current_step = sw1.max_steps then
    let sw2 := { sw1 with state := { sw1.state with in_unfold := false } }
    if sw2.state.reversed_folds = false then dequeue_next_action sw2
    else start_fold sw2
  else sw1

/-- `view_switcher::update_rotate`, lines 667-677. -/
def update_rotate (sw : Switcher) : Switcher :=
  let sw1 := { sw with current_step := sw.current_step + 1 }
  if sw1.current_step = sw1.max_steps then
    let sw2 := { sw1 with state := { sw1.state with in_rotate := false } }
    dequeue_next_action sw2
  else sw1

/-- `view_switcher::cleanup_view`, lines 357-383.  After erasing the last
view the index adjustment computes `(current_view_index + 0 - 1) % 0`:
modulo by zero in C++ (the model records `ub` and uses the value of the
Lean `%`). -/
def cleanup_view (sw : Switcher) (view : Nat) : Switcher :=
  let i := sw.views.findIdx (fun v => v == view)
  if i = sw.views.length then sw
  else
    let sw1 := { sw with views := sw.views.eraseIdx i }
    let sw2 := if sw1.views.isEmpty then deactivate sw1 else sw1
    let sw3 : Switcher :=
      if i ≤ sw2.current_view_index then
        let sw2 := if sw2.views.length = 0 then { sw2 with ub := true } else sw2
        { sw2 with current_view_index :=
            (sw2.current_view_index + sw2.views.length - 1) % sw2.views.length }
      else sw2
    let sw4 : Switcher :=
      { sw3 with active_views := sw3.active_views.filter (fun v => v != view) }
    if sw4.views.length = 2 then push_next_view sw4 1 else sw4

/-! ### Switcher/output composition, from
`src/plugins/single_plugins/switcher.cpp` (`activate`, `fast_switch`,
`fast_switch_next`).

The composed state carries the output, the switcher, the switcher's grab
interface (its `abilities_mask` is `WF_ABILITY_CONTROL_WM`), whether
`grab_interface->grab()` has been called, and the names of the signals
the switcher has connected on the output.  `focus_view(nullptr)`,
`damage(NULL)`, `add_output_effect`, `setup_graphics` and the background
transformer act on collaborators outside this state (or on geometry
only). -/

structure System where
  out : OutputState
  sw : Switcher
  iface : GrabIface
  grabbed : Bool
  connected_signals : List String
  render : RenderState
  effect_hook_added : Bool

/-- `view_switcher::fast_switch_next`, lines 759-776: dims the previous
view, advances the index cyclically, undims and raises the new one.  The
alpha writes are view-side; an empty view list would make both the
initial indexing and the modulo undefined in C++. -/
def fast_switch_next (sw : Switcher) : Switcher :=
  if sw.views.length = 0 then { sw with ub := true }
  else { sw with current_view_index := (sw.current_view_index + 1) % sw.views.length }

/-- `view_switcher::activate`, lines 192-238. -/
def switcher_activate (s : System) : System :=
  if is_plugin_active s.out s.iface.id then s
  else
    let r := activate_plugin s.out s.iface true
    if r.1 = false then { s with out := r.2 }
    else
      let s1 : System := { s with out := r.2, sw := update_views s.sw }
      if s1.sw.views.length = 0 then
        let r2 := deactivate_plugin s1.out s.iface
        { s1 with out := r2.2 }
      else
        let swA : Switcher :=
          { s1.sw with
            state := { s1.sw.state with active := true, mod_released := false,
                                        in_continuous_switch := false,
                                        reversed_folds := false },
            next_actions := [] }
        let s2 : System := { s1 with sw := swA, grabbed := true }
        let s3 : System := { s2 with render := auto_redraw s2.render true,
                                     effect_hook_added := true }
        let s4 : System :=
          { s3 with connected_signals :=
              s3.connected_signals ++ ["destroy-view", "detach-view"] }
        { s4 with sw := start_fold s4.sw }

/-- `view_switcher::fast_switch`, lines 701-735. -/
def switcher_fast_switch (s : System) : System :=
  if s.sw.state.active then s
  else
    let r := activate_plugin s.out s.iface true
    if r.1 = false then { s with out := r.2 }
    else
      let s1 : System := { s with out := r.2, sw := update_views s.sw }
      if s1.sw.views.length < 1 then
        let r2 := deactivate_plugin s1.out s.iface
        { s1 with out := r2.2 }
      else
        let swA : Switcher :=
          { s1.sw with
            current_view_index := 0,
            state := { s1.sw.state with in_fast_switch := true,
                                        in_continuous_switch := true,
                                        active := true, mod_released := false } }
        let s2 : System := { s1 with sw := swA, grabbed := true }
        { s2 with sw := fast_switch_next s2.sw }

/-! ### Theorems -/

/-- C10: `point_inside` treats the right and bottom edges as inside: it
holds exactly when `rect.x ≤ point.x ≤ rect.x + rect.width` and
`rect.y ≤ point.y ≤ rect.y + rect.height`, so a point with
`x = rect.x + rect.width` is counted as contained. -/
theorem point_inside_closed_iff (p : wf_point) (r : wf_geometry) :
    point_inside p r = true ↔
      (r.x ≤ p.x ∧ p.x ≤ r.x + r.width ∧ r.y ≤ p.y ∧ p.y ≤ r.y + r.height) := by
  unfold point_inside
  split_ifs with h1 h2 h3 <;> simp_all <;> omega

/-- Every `auto_redraw` call keeps a non-negative count non-negative. -/
lemma auto_redraw_step_nonneg (st : RenderState) (b : Bool)
    (h : 0 ≤ st.constant_redraw) : 0 ≤ (auto_redraw st b).constant_redraw := by
  unfold auto_redraw schedule_redraw
  dsimp only
  split_ifs <;> dsimp only <;> omega

/-- Folding `auto_redraw` over any call sequence keeps the count
non-negative. -/
lemma auto_redraw_foldl_nonneg (l : List Bool) (st : RenderState)
    (h : 0 ≤ st.constant_redraw) :
    0 ≤ (List.foldl auto_redraw st l).constant_redraw := by
  induction l generalizing st with
  | nil => exact h
  | cons b tl ih =>
      exact ih (auto_redraw st b) (auto_redraw_step_nonneg st b h)

/-- C7: starting from count `0`, any sequence of `auto_redraw(true)` /
`auto_redraw(false)` calls keeps the constant-redraw count `≥ 0`; a
decrement at `0` clamps back to `0`; an increment at `0` yields count `1`
and leaves a redraw scheduled. -/
theorem auto_redraw_count_invariant :
    (∀ l : List Bool,
        0 ≤ (List.foldl auto_redraw ⟨0, false⟩ l).constant_redraw) ∧
    (∀ st : RenderState, st.constant_redraw = 0 →
        (auto_redraw st false).constant_redraw = 0 ∧
        (auto_redraw st true).constant_redraw = 1 ∧
        (auto_redraw st true).idle_scheduled = true) := by
  constructor
  · intro l
    exact auto_redraw_foldl_nonneg l ⟨0, false⟩ (by norm_num)
  · intro st h
    unfold auto_redraw schedule_redraw
    dsimp only
    split_ifs <;> simp_all <;> omega

/-- Witness for C7 at a concrete call sequence and state. -/
theorem auto_redraw_count_invariant_witness :
    0 ≤ (List.foldl auto_redraw ⟨0, false⟩ [true, false, false]).constant_redraw ∧
    (auto_redraw ⟨0, false⟩ true).constant_redraw = 1 ∧
    (auto_redraw ⟨0, false⟩ true).idle_scheduled = true :=
  ⟨auto_redraw_count_invariant.1 [true, false, false],
   (auto_redraw_count_invariant.2 ⟨0, false⟩ rfl).2.1,
   (auto_redraw_count_invariant.2 ⟨0, false⟩ rfl).2.2⟩

/-- C1: for a plugin not yet in the active set, activation with an
already-active plugin of overlapping capability mask fails and leaves the
state untouched; activation succeeds exactly when the output is focused
and the mask is disjoint from every active plugin's mask, in which case
the owner is added; any failure leaves the state exactly as it was. -/
theorem activate_plugin_exclusivity (st : OutputState) (owner : GrabIface)
    (lf : Bool) (h : owner ∉ st.active_plugins) :
    ((∃ p ∈ st.active_plugins, p.abilities &&& owner.abilities ≠ 0) →
        activate_plugin st owner lf = (false, st)) ∧
    ((activate_plugin st owner lf).1 = true ↔
        (st.focused = true ∧ ∀ p ∈ st.active_plugins, p.abilities &&& owner.abilities = 0)) ∧
    ((activate_plugin st owner lf).1 = true →
        (activate_plugin st owner lf).2.active_plugins = insert owner st.active_plugins) ∧
    ((activate_plugin st owner lf).1 = false →
        (activate_plugin st owner lf).2 = st) := by
  by_cases hf : st.focused = false
  · simp [activate_plugin, hf]
  · by_cases hc : ∀ p ∈ st.active_plugins, p.abilities &&& owner.abilities = 0
    · refine ⟨fun ⟨p, hp, hne⟩ => absurd (hc p hp) hne, ?_, ?_, ?_⟩ <;>
        · simp [activate_plugin, emit_signal, hf, h, hc]
          try split_ifs <;> simp_all
    · have hex : activate_plugin st owner lf = (false, st) := by
        simp [activate_plugin, hf, h, hc]
      refine ⟨fun _ => hex, ?_, ?_, ?_⟩ <;> simp [hex, hc]

/-- Witness for C1: one active plugin with mask `3`, a second plugin with
overlapping mask `1` is rejected on a focused output. -/
theorem activate_plugin_exclusivity_witness :
    activate_plugin ⟨true, {⟨1, 3⟩}, [], []⟩ ⟨2, 1⟩ true =
      (false, ⟨true, {⟨1, 3⟩}, [], []⟩) :=
  (activate_plugin_exclusivity ⟨true, {⟨1, 3⟩}, [], []⟩ ⟨2, 1⟩ true (by decide)).1
    ⟨⟨1, 3⟩, by decide, by decide⟩

/-- C6: deactivating an active plugin removes it from the active set,
records the `ungrab()` call on it, and emits `_activation_request`
exactly when the removal empties the active set. -/
theorem deactivate_plugin_release (st : OutputState) (owner : GrabIface)
    (h : owner ∈ st.active_plugins) :
    (deactivate_plugin st owner).1 = true ∧
    (deactivate_plugin st owner).2.active_plugins = st.active_plugins.erase owner ∧
    (deactivate_plugin st owner).2.ungrab_calls = st.ungrab_calls ++ [owner.id] ∧
    ((deactivate_plugin st owner).2.signals = st.signals ++ ["_activation_request"] ↔
        st.active_plugins.erase owner = ∅) ∧
    (st.active_plugins.erase owner ≠ ∅ →
        (deactivate_plugin st owner).2.signals = st.signals) := by
  have hne : owner ∉ st.active_plugins.erase owner := Finset.not_mem_erase owner _
  have hee : (st.active_plugins.erase owner).erase owner = st.active_plugins.erase owner :=
    Finset.erase_eq_of_not_mem hne
  by_cases hz : st.active_plugins.erase owner = ∅
  · simp [deactivate_plugin, emit_signal, h, hne, hee, hz]
  · simp [deactivate_plugin, emit_signal, h, hne, hee, hz]

/-- Witness for C6: deactivating the only active plugin empties the set
and emits the internal activation-released signal. -/
theorem deactivate_plugin_release_witness :
    (deactivate_plugin ⟨true, {⟨1, 3⟩}, [], []⟩ ⟨1, 3⟩).2.active_plugins =
        ({⟨1, 3⟩} : Finset GrabIface).erase ⟨1, 3⟩ ∧
    (deactivate_plugin ⟨true, {⟨1, 3⟩}, [], []⟩ ⟨1, 3⟩).2.ungrab_calls = [1] ∧
    (deactivate_plugin ⟨true, {⟨1, 3⟩}, [], []⟩ ⟨1, 3⟩).2.signals =
        ["_activation_request"] := by
  have h := deactivate_plugin_release ⟨true, {⟨1, 3⟩}, [], []⟩ ⟨1, 3⟩ (by decide)
  exact ⟨h.2.1, h.2.2.1, h.2.2.2.1.mpr (by decide)⟩

/-- `clamp lo x hi` lies between `lo` and `hi` whenever `lo ≤ hi`. -/
lemma clamp_mem (lo x hi : ℝ) (h : lo ≤ hi) :
    lo ≤ clamp lo x hi ∧ clamp lo x hi ≤ hi := by
  unfold clamp
  split_ifs with h1 h2 <;> constructor <;> linarith

/-- C8 counterexample: at `c = -1` the value `get_scale_factor 1 1 1 1 (-1)`
is `-1`, which does not lie in the closed interval
`[0.66 * (-1), 1.5 * (-1)]` (that interval is empty). -/
theorem get_scale_factor_negative_c_counterexample :
    ¬ ((0.66 : ℝ) * (-1) ≤ get_scale_factor 1 1 1 1 (-1) ∧
       get_scale_factor 1 1 1 1 (-1) ≤ 1.5 * (-1)) := by
  have hv : get_scale_factor 1 1 1 1 (-1) = -1 := by
    unfold get_scale_factor clamp
    dsimp only
    rw [show ((1 : ℝ) * 1 + 1 * 1) / (1 * 1 + 1 * 1) = 1 by norm_num, Real.sqrt_one]
    norm_num
  rw [hv]
  norm_num

/-- C8 amended: for positive `w, h, sw, sh` and non-negative `c`,
`get_scale_factor w h sw sh c` lies in `[0.66 * c, 1.5 * c]`. -/
theorem get_scale_factor_range (w h sw sh c : ℝ)
    (hw : 0 < w) (hh : 0 < h) (hsw : 0 < sw) (hsh : 0 < sh) (hc : 0 ≤ c) :
    0.66 * c ≤ get_scale_factor w h sw sh c ∧
    get_scale_factor w h sw sh c ≤ 1.5 * c := by
  have hb := clamp_mem 0.66 (Real.sqrt ((sw * sw + sh * sh) / (w * w + h * h))) 1.5
    (by norm_num)
  unfold get_scale_factor
  dsimp only
  exact ⟨mul_le_mul_of_nonneg_right hb.1 hc, mul_le_mul_of_nonneg_right hb.2 hc⟩

/-- Witness for the amended C8 at `w = h = sw = sh = c = 1`. -/
theorem get_scale_factor_range_witness :
    (0.66 : ℝ) * 1 ≤ get_scale_factor 1 1 1 1 1 ∧
    get_scale_factor 1 1 1 1 1 ≤ 1.5 * 1 :=
  get_scale_factor_range 1 1 1 1 1 (by norm_num) (by norm_num) (by norm_num)
    (by norm_num) (by norm_num)

lemma mem_region_union_rect_self (r : Region) (x y w h : Int)
    (hb : (PBox.mk x y (x + w) (y + h)).nonempty = true) :
    PBox.mk x y (x + w) (y + h) ∈ region_union_rect r x y w h := by
  simp [region_union_rect, hb]

lemma mem_region_union_rect_of_mem (r : Region) (x y w h : Int) (b : PBox)
    (hb : b ∈ r) : b ∈ region_union_rect r x y w h := by
  unfold region_union_rect
  split_ifs <;> simp [hb]

lemma region_not_empty_union_rect (r : Region) (x y w h : Int)
    (hb : (PBox.mk x y (x + w) (y + h)).nonempty = true) :
    region_not_empty (region_union_rect r x y w h) = true := by
  simp [region_union_rect, region_not_empty, hb]

lemma stream_update_big_ratio_mem (g : wf_geometry) (vw vh cx cy : Int)
    (fd : Region) (stream : StreamState) (sx sy : ℚ)
    (hgw : 0 < g.width) (hgh : 0 < g.height)
    (hsc : max ((stream.scale_x * stream.scale_y) / (sx * sy))
          ((sx * sy) / (stream.scale_x * stream.scale_y)) > 2) :
    PBox.mk (g.x + (stream.ws_x - cx) * g.width) (g.y + (stream.ws_y - cy) * g.height)
        (g.x + (stream.ws_x - cx) * g.width + g.width)
        (g.y + (stream.ws_y - cy) * g.height + g.height)
      ∈ (workspace_stream_update g vw vh cx cy fd stream sx sy).ws_damage := by
  have hbox : (PBox.mk (g.x + (stream.ws_x - cx) * g.width)
      (g.y + (stream.ws_y - cy) * g.height)
      (g.x + (stream.ws_x - cx) * g.width + g.width)
      (g.y + (stream.ws_y - cy) * g.height + g.height)).nonempty = true := by
    simp [PBox.nonempty]
    omega
  unfold workspace_stream_update
  dsimp only
  rw [if_pos hsc]
  rw [if_neg (by simp [region_not_empty_union_rect _ _ _ _ _ hbox])]
  split_ifs with hd
  · exact mem_region_union_rect_of_mem _ _ _ _ _ _
      (mem_region_union_rect_self _ _ _ _ _ hbox)
  · exact mem_region_union_rect_self _ _ _ _ _ hbox

/-- C3 amended: `workspace_stream_update` adds the full workspace
rectangle to the damage that drives redrawing whenever the resolution
scale ratio exceeds 2 (also for empty accumulated damage), and, when the
function does not take its early empty-damage return, whenever the target
scale differs from the stored scale. -/
theorem stream_update_invalidation (g : wf_geometry) (vw vh cx cy : Int)
    (fd : Region) (stream : StreamState) (sx sy : ℚ)
    (hgw : 0 < g.width) (hgh : 0 < g.height)
    (hcase :
      max ((stream.scale_x * stream.scale_y) / (sx * sy))
          ((sx * sy) / (stream.scale_x * stream.scale_y)) > 2 ∨
      ((workspace_stream_update g vw vh cx cy fd stream sx sy).early = false ∧
        (sx ≠ stream.scale_x ∨ sy ≠ stream.scale_y))) :
    PBox.mk (g.x + (stream.ws_x - cx) * g.width) (g.y + (stream.ws_y - cy) * g.height)
        (g.x + (stream.ws_x - cx) * g.width + g.width)
        (g.y + (stream.ws_y - cy) * g.height + g.height)
      ∈ (workspace_stream_update g vw vh cx cy fd stream sx sy).ws_damage := by
  have hbox : (PBox.mk (g.x + (stream.ws_x - cx) * g.width)
      (g.y + (stream.ws_y - cy) * g.height)
      (g.x + (stream.ws_x - cx) * g.width + g.width)
      (g.y + (stream.ws_y - cy) * g.height + g.height)).nonempty = true := by
    simp [PBox.nonempty]
    omega
  rcases hcase with hsc | ⟨hne, hdiff⟩
  · exact stream_update_big_ratio_mem g vw vh cx cy fd stream sx sy hgw hgh hsc
  · by_cases hsc : max ((stream.scale_x * stream.scale_y) / (sx * sy))
        ((sx * sy) / (stream.scale_x * stream.scale_y)) > 2
    · exact stream_update_big_ratio_mem g vw vh cx cy fd stream sx sy hgw hgh hsc
    · unfold workspace_stream_update at hne ⊢
      dsimp only at hne ⊢
      rw [if_neg hsc] at hne ⊢
      by_cases hb : region_not_empty
          (get_ws_damage fd g stream.ws_x stream.ws_y vw vh cx cy) = false
      · rw [if_pos hb] at hne
        simp at hne
      · rw [if_neg hb] at hne ⊢
        split_ifs with h3
        exact mem_region_union_rect_self _ _ _ _ _ hbox

/-- C3 counterexample: with empty accumulated damage, stored stream scale
`(1, 1)` and requested scale `(3/2, 1)` (a changed target scale, with
resolution ratio `3/2 ≤ 2`), `workspace_stream_update` returns at the
early `we don't have to update anything` exit: no full-rectangle
invalidation is added to the damage driving redrawing (the damage is
empty) and the stored scale is not even updated. -/
theorem stream_update_scale_change_counterexample :
    (3 / 2 : ℚ) ≠ 1 ∧
    workspace_stream_update ⟨0, 0, 100, 100⟩ 1 1 0 0 [] ⟨0, 0, 1, 1⟩ (3 / 2) 1 =
      ⟨true, ⟨0, 0, 1, 1⟩, []⟩ :=
  ⟨by norm_num,
   by norm_num [workspace_stream_update, get_ws_damage, region_intersect_rect,
     region_not_empty, region_union_rect, region_translate, lt_max_iff, PBox.nonempty]⟩

/-- Witness for the amended C3: with resolution ratio `3 > 2` the full
workspace rectangle is in the damage even though the accumulated damage
is empty. -/
theorem stream_update_invalidation_witness :
    PBox.mk 0 0 100 100 ∈
      (workspace_stream_update ⟨0, 0, 100, 100⟩ 1 1 0 0 [] ⟨0, 0, 1, 1⟩ 3 1).ws_damage := by
  have h := stream_update_invalidation ⟨0, 0, 100, 100⟩ 1 1 0 0 [] ⟨0, 0, 1, 1⟩ 3 1
    (by norm_num) (by norm_num) (Or.inl (by norm_num [lt_max_iff]))
  simpa using h

/-- C2 counterexample: with a fold stage animating and the pending queue
already holding `MAX_ACTIONS = 4` entries, `push_exit` appends the exit
action without any capacity check, so the FIFO reaches 5 entries. -/
theorem push_exit_queue_overflow_counterexample :
    (push_exit ⟨{ SwitcherFlags.initial with in_fold := true }, 0, 30, 5, 0,
        [1, 1, 1, 1], [7, 8, 9], [], [], 0, [], false⟩).next_actions = [1, 1, 1, 1, 0] ∧
    ([1, 1, 1, 1, 0] : List Int).length = MAX_ACTIONS + 1 := by
  exact ⟨by decide, by decide⟩

/-- C2 amended: while a stage is animating, a step action is appended iff
the queue holds fewer than `MAX_ACTIONS = 4` entries and otherwise starts
a rotation directly; the exit action is appended unconditionally (the
queue can therefore exceed 4 entries through exit actions). -/
theorem push_action_capacity (sw : Switcher) (delta : Int)
    (h : (sw.state.in_rotate || sw.state.in_fold || sw.state.in_unfold) = true) :
    (sw.next_actions.length < MAX_ACTIONS →
        push_next_view sw delta = { sw with next_actions := sw.next_actions ++ [delta] }) ∧
    (MAX_ACTIONS ≤ sw.next_actions.length →
        push_next_view sw delta = start_rotate sw delta) ∧
    push_exit sw = { sw with next_actions := sw.next_actions ++ [0] } := by
  refine ⟨fun hlt => ?_, fun hge => ?_, ?_⟩
  · simp [push_next_view, h, hlt]
  · simp [push_next_view, h, Nat.not_lt.mpr hge]
  · simp [push_exit, h]

/-- Witness for the amended C2: a fifth step action pushed onto a full
queue while animating is not queued and starts the rotation directly. -/
theorem push_action_capacity_witness :
    push_next_view ⟨{ SwitcherFlags.initial with in_fold := true }, 0, 30, 5, 0,
        [1, 1, 1, 1], [7, 8, 9], [], [], 0, [], false⟩ 1 =
      start_rotate ⟨{ SwitcherFlags.initial with in_fold := true }, 0, 30, 5, 0,
        [1, 1, 1, 1], [7, 8, 9], [], [], 0, [], false⟩ 1 :=
  (push_action_capacity _ 1 (by decide)).2.1 (by decide)

/-- C4: removing the single remaining view via `cleanup_view` calls
`deactivate` exactly once and leaves `state.active = false`, but the
removed view's transformer is never cleared (it was erased from `views`
before `deactivate` iterates over `views`), and the run executes
undefined behaviour: `view_chosen` indexes the empty view vector and the
index adjustment computes `(current_view_index + 0 - 1) % 0`. -/
theorem cleanup_view_single_view_bug :
    (cleanup_view ⟨{ SwitcherFlags.initial with active := true }, 0, 30, 5, 0,
        [], [7], [], [], 0, [], false⟩ 7).deactivate_count = 1 ∧
    (cleanup_view ⟨{ SwitcherFlags.initial with active := true }, 0, 30, 5, 0,
        [], [7], [], [], 0, [], false⟩ 7).state.active = false ∧
    (cleanup_view ⟨{ SwitcherFlags.initial with active := true }, 0, 30, 5, 0,
        [], [7], [], [], 0, [], false⟩ 7).cleared_transforms = [] ∧
    (cleanup_view ⟨{ SwitcherFlags.initial with active := true }, 0, 30, 5, 0,
        [], [7], [], [], 0, [], false⟩ 7).ub = true := by
  exact ⟨by decide, by decide, by decide, by decide⟩

lemma start_unfold_projs (sw : Switcher) :
    (start_unfold sw).current_step = 0 ∧
    (start_unfold sw).max_steps = sw.max_steps ∧
    (start_unfold sw).state = { sw.state with in_unfold := true } ∧
    (start_unfold sw).next_actions = sw.next_actions ∧
    (start_unfold sw).views = sw.views ∧
    (start_unfold sw).current_view_index = sw.current_view_index := by
  unfold start_unfold push_unfolded
  dsimp only
  split_ifs <;> simp

lemma start_fold_projs (sw : Switcher) :
    (start_fold sw).next_actions = sw.next_actions ∧
    (start_fold sw).state = { sw.state with in_fold := true } ∧
    (start_fold sw).max_steps = sw.max_steps := by
  unfold start_fold update_views
  dsimp only
  simp

lemma start_rotate_projs (sw : Switcher) (dir : Int) :
    (start_rotate sw dir).next_actions = sw.next_actions ∧
    (start_rotate sw dir).state.in_unfold = sw.state.in_unfold := by
  unfold start_rotate push_unfolded
  dsimp only
  split_ifs <;> simp

lemma update_unfold_step (s : Switcher) (h : s.current_step + 1 ≠ s.max_steps) :
    update_unfold s = { s with current_step := s.current_step + 1 } := by
  unfold update_unfold
  dsimp only
  rw [if_neg h]

lemma update_unfold_iterate (m : Nat) (s : Switcher)
    (h : s.current_step + m < s.max_steps) :
    update_unfold^[m] s = { s with current_step := s.current_step + m } := by
  induction m generalizing s with
  | zero => rfl
  | succ k ih =>
      rw [Function.iterate_succ_apply, update_unfold_step s (by omega)]
      rw [ih { s with current_step := s.current_step + 1 } (by dsimp only; omega)]
      dsimp only
      congr 1
      omega

lemma dequeue_results (s : Switcher) (hf : s.state.in_fold = false)
    (hu : s.state.in_unfold = false) (hr : s.state.in_rotate = false) :
    (dequeue_next_action s).next_actions = s.next_actions.tail ∧
    ((dequeue_next_action s).state.in_unfold = true ↔
       (s.next_actions.head? = some 0 ∧ 2 ≤ s.views.length)) := by
  cases hq : s.next_actions with
  | nil => simp [dequeue_next_action, hq, hu]
  | cons a rest =>
      have hstep : dequeue_next_action s =
          (if a = 0 then push_exit { s with next_actions := rest }
           else push_next_view { s with next_actions := rest } a) := by
        unfold dequeue_next_action
        rw [hq]
        dsimp only
        rw [if_neg (show ¬ ((s.state.in_fold || s.state.in_unfold ||
            s.state.in_rotate) = true) from by simp [hf, hu, hr])]
      by_cases ha : a = 0
      · subst ha
        rw [hstep, if_pos rfl]
        unfold push_exit
        rw [if_neg (by simp [hf, hu, hr])]
        dsimp only
        by_cases hlen : 2 ≤ s.views.length
        · rw [if_pos hlen]
          constructor
          · rw [(start_unfold_projs _).2.2.2.1]
            simp [hq]
          · rw [(start_unfold_projs _).2.2.1]
            simp [hq, hlen]
        · rw [if_neg hlen]
          constructor
          · rw [(start_fold_projs _).1]
            simp [hq]
          · rw [(start_fold_projs _).2.1]
            simp [hq, hu, hlen]
      · rw [hstep, if_neg ha]
        unfold push_next_view
        rw [if_neg (by simp [hf, hu, hr])]
        constructor
        · rw [(start_rotate_projs _ _).1]
          simp [hq]
        · rw [(start_rotate_projs _ _).2]
          simp [hq, hu, ha]

lemma update_unfold_last (s : Switcher) (h : s.current_step + 1 = s.max_steps) :
    update_unfold s =
      (if s.state.reversed_folds = false
       then dequeue_next_action
          { s with current_step := s.current_step + 1,
                   state := { s.state with in_unfold := false } }
       else start_fold
          { s with current_step := s.current_step + 1,
                   state := { s.state with in_unfold := false } }) := by
  unfold update_unfold
  dsimp only
  rw [if_pos h]

/-- C5 amended: from any state with no fold or rotate stage pending and
`max_steps ≥ 1`, `start_unfold()` followed by exactly `max_steps` calls
of `update_unfold()` consumes (when not reversed) exactly the front entry
of the pending-action FIFO, and ends with `state.in_unfold = false`
except in one case: when the dequeued action is the exit request `0` and
at least two views are tracked, applying it immediately starts the
reversed unfold, so `state.in_unfold` is `true` again. -/
theorem unfold_round_trip (sw : Switcher) (h1 : 1 ≤ sw.max_steps)
    (hf : sw.state.in_fold = false) (hr : sw.state.in_rotate = false) :
    ((update_unfold^[sw.max_steps] (start_unfold sw)).state.in_unfold = true ↔
        (sw.state.reversed_folds = false ∧ sw.next_actions.head? = some 0 ∧
          2 ≤ sw.views.length)) ∧
    (sw.state.reversed_folds = false →
        (update_unfold^[sw.max_steps] (start_unfold sw)).next_actions =
          sw.next_actions.tail) := by
  obtain ⟨p1, p2, p3, p4, p5, p6⟩ := start_unfold_projs sw
  obtain ⟨m, hm⟩ : ∃ m, sw.max_steps = m + 1 := ⟨sw.max_steps - 1, by omega⟩
  rw [hm, Function.iterate_succ_apply']
  rw [update_unfold_iterate m (start_unfold sw) (by rw [p1, p2, hm]; omega)]
  rw [update_unfold_last _ (by dsimp only; rw [p1, p2, hm]; omega)]
  dsimp only
  rw [p3]
  dsimp only
  by_cases hrev : sw.state.reversed_folds = false
  · rw [if_pos hrev]
    have hd := dequeue_results
      { start_unfold sw with
        current_step := (start_unfold sw).current_step + m + 1,
        state := { sw.state with in_unfold := false } }
      (by dsimp only; exact hf) (by dsimp only) (by dsimp only; exact hr)
    rw [hd.1, hd.2]
    dsimp only
    rw [p4, p5]
    simp [hrev]
  · rw [if_neg hrev]
    have hsf := start_fold_projs
      { start_unfold sw with
        current_step := (start_unfold sw).current_step + m + 1,
        state := { sw.state with in_unfold := false } }
    rw [hsf.2.1]
    dsimp only
    simp [hrev]

/-- C5 counterexample: with `max_steps = 1`, a queued exit action `0` and
two views, running `start_unfold()` then `update_unfold()` exactly
`max_steps` times ends with `state.in_unfold = true`, not `false`: the
dequeued exit starts the reversed unfold stage. -/
theorem unfold_round_trip_exit_counterexample :
    (update_unfold^[(⟨SwitcherFlags.initial, 0, 1, 5, 0, [0], [5, 6], [], [], 0, [],
        false⟩ : Switcher).max_steps]
      (start_unfold ⟨SwitcherFlags.initial, 0, 1, 5, 0, [0], [5, 6], [], [], 0, [],
        false⟩)).state.in_unfold = true := by
  decide

/-- Witness for the amended C5: with a queued step action the round trip
ends un-unfolded and the queue entry is consumed. -/
theorem unfold_round_trip_witness :
    (update_unfold^[(⟨SwitcherFlags.initial, 0, 2, 5, 0, [1], [5, 6, 7], [], [], 0, [],
        false⟩ : Switcher).max_steps]
      (start_unfold ⟨SwitcherFlags.initial, 0, 2, 5, 0, [1], [5, 6, 7], [], [], 0, [],
        false⟩)).state.in_unfold = false ∧
    (update_unfold^[(⟨SwitcherFlags.initial, 0, 2, 5, 0, [1], [5, 6, 7], [], [], 0, [],
        false⟩ : Switcher).max_steps]
      (start_unfold ⟨SwitcherFlags.initial, 0, 2, 5, 0, [1], [5, 6, 7], [], [], 0, [],
        false⟩)).next_actions = [] := by
  have h := unfold_round_trip
    ⟨SwitcherFlags.initial, 0, 2, 5, 0, [1], [5, 6, 7], [], [], 0, [], false⟩
    (by decide) (by decide) (by decide)
  constructor
  · have hne : ¬ ((update_unfold^[(⟨SwitcherFlags.initial, 0, 2, 5, 0, [1], [5, 6, 7],
        [], [], 0, [], false⟩ : Switcher).max_steps]
        (start_unfold ⟨SwitcherFlags.initial, 0, 2, 5, 0, [1], [5, 6, 7], [], [], 0, [],
          false⟩)).state.in_unfold = true) :=
      fun hc => by
        have := h.1.mp hc
        revert this
        decide
    simpa using hne
  · have := h.2 (by decide)
    simpa using this

/-- On a focused output with no capability conflict, `activate_plugin`
succeeds, inserts the owner, and calls no `ungrab()`. -/
lemma activate_plugin_succeeds (st : OutputState) (owner : GrabIface) (lf : Bool)
    (hf : st.focused = true)
    (hc : ∀ p ∈ st.active_plugins, p.abilities &&& owner.abilities = 0) :
    (activate_plugin st owner lf).1 = true ∧
    (activate_plugin st owner lf).2.active_plugins = insert owner st.active_plugins ∧
    (activate_plugin st owner lf).2.ungrab_calls = st.ungrab_calls := by
  unfold activate_plugin emit_signal
  split_ifs <;> simp_all

/-- `deactivate_plugin` leaves the owner outside the active set, and for
an active owner records the `ungrab()` call. -/
lemma deactivate_plugin_removes (st : OutputState) (owner : GrabIface) :
    owner ∉ (deactivate_plugin st owner).2.active_plugins ∧
    (owner ∈ st.active_plugins →
        (deactivate_plugin st owner).2.ungrab_calls = st.ungrab_calls ++ [owner.id]) := by
  have hne : owner ∉ st.active_plugins.erase owner := Finset.not_mem_erase owner _
  have hee : (st.active_plugins.erase owner).erase owner = st.active_plugins.erase owner :=
    Finset.erase_eq_of_not_mem hne
  by_cases h : owner ∈ st.active_plugins
  · by_cases hz : st.active_plugins.erase owner = ∅
    · simp [deactivate_plugin, emit_signal, h, hne, hee, hz]
    · simp [deactivate_plugin, emit_signal, h, hne, hee, hz]
  · simp [deactivate_plugin, h]

/-- C9: if the switcher is activated with no views on the current
workspace -- through `activate()` or through `fast_switch()` on a
focused output with no capability conflict -- the plugin deactivates
itself on the output (its interface is not in the active set afterwards
and its `ungrab()` was called by `deactivate_plugin`) and returns
untouched: no grab is taken, no signals are connected, and the switcher
flags (in particular `state.active` and the stage flags) are exactly as
before. -/
theorem activate_empty_workspace (s : System)
    (hfoc : s.out.focused = true)
    (hcompat : ∀ a ∈ s.out.active_plugins, a.abilities &&& s.iface.abilities = 0)
    (hnotact : ¬ is_plugin_active s.out s.iface.id)
    (hempty : s.sw.workspace_views = [])
    (hact : s.sw.state.active = false) :
    ((switcher_activate s).sw.state = s.sw.state ∧
     (switcher_activate s).grabbed = s.grabbed ∧
     (switcher_activate s).connected_signals = s.connected_signals ∧
     s.iface ∉ (switcher_activate s).out.active_plugins ∧
     (switcher_activate s).out.ungrab_calls = s.out.ungrab_calls ++ [s.iface.id]) ∧
    ((switcher_fast_switch s).sw.state = s.sw.state ∧
     (switcher_fast_switch s).grabbed = s.grabbed ∧
     (switcher_fast_switch s).connected_signals = s.connected_signals ∧
     s.iface ∉ (switcher_fast_switch s).out.active_plugins ∧
     (switcher_fast_switch s).out.ungrab_calls = s.out.ungrab_calls ++ [s.iface.id]) := by
  have hsucc := activate_plugin_succeeds s.out s.iface true hfoc hcompat
  have hrem := deactivate_plugin_removes (activate_plugin s.out s.iface true).2 s.iface
  have hmem : s.iface ∈ (activate_plugin s.out s.iface true).2.active_plugins := by
    rw [hsucc.2.1]
    exact Finset.mem_insert_self _ _
  constructor
  · unfold switcher_activate
    rw [if_neg hnotact]
    dsimp only
    rw [if_neg (by simp [hsucc.1])]
    rw [if_pos (by simp [update_views, hempty])]
    refine ⟨by simp [update_views], rfl, rfl, hrem.1, ?_⟩
    rw [hrem.2 hmem, hsucc.2.2]
  · unfold switcher_fast_switch
    rw [if_neg (by simp [hact])]
    dsimp only
    rw [if_neg (by simp [hsucc.1])]
    rw [if_pos (by simp [update_views, hempty])]
    refine ⟨by simp [update_views], rfl, rfl, hrem.1, ?_⟩
    rw [hrem.2 hmem, hsucc.2.2]

/-- Witness for C9 on a concrete system: focused output, no active
plugins, empty workspace. -/
theorem activate_empty_workspace_witness :
    (switcher_activate ⟨⟨true, ∅, [], []⟩, ⟨SwitcherFlags.initial, 0, 30, 5, 0, [], [],
        [], [], 0, [], false⟩, ⟨1, 4⟩, false, [], ⟨0, false⟩, false⟩).grabbed = false ∧
    (switcher_activate ⟨⟨true, ∅, [], []⟩, ⟨SwitcherFlags.initial, 0, 30, 5, 0, [], [],
        [], [], 0, [], false⟩, ⟨1, 4⟩, false, [], ⟨0, false⟩,
        false⟩).sw.state.active = false ∧
    (switcher_activate ⟨⟨true, ∅, [], []⟩, ⟨SwitcherFlags.initial, 0, 30, 5, 0, [], [],
        [], [], 0, [], false⟩, ⟨1, 4⟩, false, [], ⟨0, false⟩,
        false⟩).connected_signals = ([] : List String) ∧
    (⟨1, 4⟩ : GrabIface) ∉ (switcher_activate ⟨⟨true, ∅, [], []⟩, ⟨SwitcherFlags.initial,
        0, 30, 5, 0, [], [], [], [], 0, [], false⟩, ⟨1, 4⟩, false, [], ⟨0, false⟩,
        false⟩).out.active_plugins ∧
    (switcher_fast_switch ⟨⟨true, ∅, [], []⟩, ⟨SwitcherFlags.initial, 0, 30, 5, 0, [],
        [], [], [], 0, [], false⟩, ⟨1, 4⟩, false, [], ⟨0, false⟩,
        false⟩).grabbed = false := by
  have h := activate_empty_workspace ⟨⟨true, ∅, [], []⟩, ⟨SwitcherFlags.initial, 0, 30,
      5, 0, [], [], [], [], 0, [], false⟩, ⟨1, 4⟩, false, [], ⟨0, false⟩, false⟩
    rfl (by simp) (by simp [is_plugin_active]) rfl rfl
  refine ⟨?_, ?_, ?_, h.1.2.2.2.1, ?_⟩
  · rw [h.1.2.1]
  · rw [h.1.1]
    rfl
  · rw [h.1.2.2.1]
  · rw [h.2.2.1]
